import Mathlib

/-!
Verification of the dilution-planning and pipette-dispatch logic of the
igem2022 repository (`src/preculture_dilution.py` and
`src/preculture_dilution_by_pipette.py`), shallowly embedded in Lean.

Modelling conventions:
* Plate grids are total functions `Fin 8 → Fin 12 → α` (rows A–H mapped to
  `Fin 8`, columns 0–11 mapped to `Fin 12`).
* Python float arithmetic is modelled by exact rationals, with one
  exception: the single non-finite value the planner can produce.  The
  grids hold numpy `float64` values, and numpy float division by zero
  yields `+inf` (with only a RuntimeWarning), so
  `target_volume * target_OD / 0.0 = +inf`.  That value is modelled
  explicitly by the constructor `EVol.inf`.
* Hardware collaborators (labware loading, rail lights, `home`) are
  external per the spec; the observable behaviour of a run is its ordered
  list of dispatcher actions: `pickUpTip`, `dropTip`, `transfer`.
* `pipette.transfer` with `new_tip="always"` picks up and drops its tip
  internally inside the opentrons API, so it is modelled as one atomic
  action that leaves the pipette without a held tip; with
  `new_tip="never"` it does not touch the tip state.  Consequently
  `pipette.has_tip` at the end of a batch is true exactly when the batch
  picked a tip up at its start (`new_tip="never"`) and false otherwise.
* A raised Python exception is modelled by pairing the list of dispatcher
  actions performed before the raise with the exception
  (`List Act × Option Err`); helper computations that perform no actions
  before raising use `Except`.  In particular, the chained comparison of
  `preculture_dilution_by_pipette.py` line 78, applied to the whole
  DataFrame at line 82, unconditionally raises the pandas
  truth-value-ambiguity `ValueError`, so that file's dispatcher raises on
  every call before its first tip or transfer action.
-/

/-- Grid indexed by rows A–H and columns 0–11. -/
def Grid (α : Type) : Type := Fin 8 → Fin 12 → α

/-- Value of one planner cell: a finite number of microliters, or the IEEE
float infinity produced by division by zero. -/
inductive EVol : Type
  | fin (q : ℚ)
  | inf
  deriving DecidableEq

/-- The two pipettes loaded by both protocols (`pipette_p10`,
`pipette_p300`). -/
inductive Pip : Type
  | p10
  | p300
  deriving DecidableEq

/-- Tip policy given to a transfer batch (`new_tip` argument). -/
inductive TipMode : Type
  | never
  | always
  deriving DecidableEq

/-- Dispatcher actions observable at the hardware interface. -/
inductive Act : Type
  | pickUpTip (p : Pip)
  | dropTip (p : Pip)
  | transfer (p : Pip) (v : EVol) (r : Fin 8) (c : Fin 12)
  deriving DecidableEq

/-- Raised Python exceptions: `invalidMeasurement` is the
`ValueError("preculture OD below 0")` of `process_OD_inputs` in
`preculture_dilution_by_pipette.py`; `truthValueAmbiguous` is the
`ValueError` pandas raises when a whole `DataFrame` is forced to a single
truth value ("The truth value of a DataFrame is ambiguous"), which the
chained comparison in `transfer_to_target` line 78 triggers at line 82. -/
inductive Err : Type
  | invalidMeasurement
  | truthValueAmbiguous
  deriving DecidableEq

/-- Row-major enumeration of all 96 wells: A0, A1, …, A11, B0, …, H11.
This is the iteration order `for row in rows: for col in cols:` of both
source files. -/
def rowMajorCells : List (Fin 8 × Fin 12) :=
  (List.finRange 8).flatMap (fun r => (List.finRange 12).map (fun c => (r, c)))

/-- `np.any` of an elementwise predicate over a grid. -/
def anyCell {α : Type} (g : Grid α) (p : α → Bool) : Bool :=
  rowMajorCells.any (fun rc => p (g rc.1 rc.2))

/-- Embed a grid of finite values into `EVol` cells. -/
def finGrid (g : Grid ℚ) : Grid EVol := fun r c => EVol.fin (g r c)

/-- Desired OD in the target plate: `target_OD = 0.05` in both files. -/
def target_OD : ℚ := 0.05

/-- Desired volume (µL) in the target plate: `target_volume = 150` in both
files. -/
def target_volume : ℚ := 150

/-- Threshold between the two pipettes: `p300_min_transfer_volume = 30` in
both files. -/
def p300_min_transfer_volume : ℚ := 30

/-- `get_transfer_volume`: `target_volume * target_OD / preculture_OD`.
At OD `0` the float quotient is `+inf` (numpy float semantics), modelled as
`EVol.inf`. -/
def get_transfer_volume (preculture_OD : ℚ) : EVol :=
  if preculture_OD = 0 then EVol.inf
  else EVol.fin (target_volume * target_OD / preculture_OD)

/-- One cell of `media_tranfer_volumes`: `target_volume - preculture_volume`
followed by the clamp `.where(media > 0, other=0)`.  When the preculture
volume is `+inf`, the float difference `150 - inf = -inf` is not `> 0` and
is clamped to `0`. -/
def mediaEntry : EVol → ℚ
  | EVol.fin q => if 0 < target_volume - q then target_volume - q else 0
  | EVol.inf => 0

/-- The pair (preculture transfer volumes, media transfer volumes) computed
identically by both source files after validation. -/
def planGrids (ods : Grid ℚ) : Grid EVol × Grid ℚ :=
  (fun r c => get_transfer_volume (ods r c),
   fun r c => mediaEntry (get_transfer_volume (ods r c)))

namespace PD

/-- `process_OD_inputs` of `preculture_dilution.py`: computes the two
volume grids with no validation at all (the below-target check at line 19
only prints a warning). -/
def process_OD_inputs (ods : Grid ℚ) : Grid EVol × Grid ℚ := planGrids ods

/-- Pipette selection of the media-distribution loop, line 83:
`pipette_p300 if media_volume >= p300_min_transfer_volume else pipette_p10`. -/
def select_media_pipette (v : ℚ) : Pip :=
  if p300_min_transfer_volume ≤ v then Pip.p300 else Pip.p10

/-- Pipette selection of the preculture loop, line 110:
`pipette_p300 if preculture_volume > p300_min_transfer_volume else
pipette_p10`.  A `+inf` volume compares greater than the threshold. -/
def select_pre_pipette : EVol → Pip
  | EVol.fin q => if p300_min_transfer_volume < q then Pip.p300 else Pip.p10
  | EVol.inf => Pip.p300

/-- The skip test `preculture_volume <= 0` on a possibly infinite cell;
`+inf <= 0` is false. -/
def nonposE : EVol → Bool
  | EVol.fin q => decide (q ≤ 0)
  | EVol.inf => false

/-- Media-distribution phase of `run` (lines 62–93).  A p10 tip is picked
up when `np.any(media < 30)` and a p300 tip when `np.any(media >= 30)`;
the loop skips cells with volume `<= 0` and transfers each remaining cell
with `new_tip="never"`; finally each pipette drops its tip when
`has_tip()` holds, which is exactly when it picked one up at the start
(never-mode transfers do not release the tip). -/
def mediaPhase (media : Grid ℚ) : List Act :=
  (if anyCell media (fun v => decide (v < p300_min_transfer_volume)) then
    [Act.pickUpTip Pip.p10] else []) ++
  (if anyCell media (fun v => decide (p300_min_transfer_volume ≤ v)) then
    [Act.pickUpTip Pip.p300] else []) ++
  rowMajorCells.filterMap (fun rc =>
    if decide (media rc.1 rc.2 ≤ 0) then none
    else some (Act.transfer (select_media_pipette (media rc.1 rc.2))
      (EVol.fin (media rc.1 rc.2)) rc.1 rc.2)) ++
  (if anyCell media (fun v => decide (v < p300_min_transfer_volume)) then
    [Act.dropTip Pip.p10] else []) ++
  (if anyCell media (fun v => decide (p300_min_transfer_volume ≤ v)) then
    [Act.dropTip Pip.p300] else [])

/-- Preculture phase of `run` (lines 97–117): skip cells with volume
`<= 0`, then transfer with `new_tip="always"` (the inner
`if preculture_volume > 0` at line 113 is redundant given the skip). -/
def prePhase (pv : Grid EVol) : List Act :=
  rowMajorCells.filterMap (fun rc =>
    if nonposE (pv rc.1 rc.2) then none
    else some (Act.transfer (select_pre_pipette (pv rc.1 rc.2))
      (pv rc.1 rc.2) rc.1 rc.2))

/-- Dispatcher trace of `run`: media phase then preculture phase. -/
def dispatch (pv : Grid EVol) (media : Grid ℚ) : List Act :=
  mediaPhase media ++ prePhase pv

/-- Whole run of `preculture_dilution.py` as its dispatcher trace. -/
def run (ods : Grid ℚ) : List Act :=
  dispatch (process_OD_inputs ods).1 (process_OD_inputs ods).2

end PD

namespace BP

/-- `process_OD_inputs` of `preculture_dilution_by_pipette.py`: raises
`ValueError` when `np.any(preculture_ODs < 0)` (lines 28–29); the
below-target check only prints a warning; then computes both grids. -/
def process_OD_inputs (ods : Grid ℚ) : Except Err (Grid EVol × Grid ℚ) :=
  if anyCell ods (fun v => decide (v < 0)) then Except.error Err.invalidMeasurement
  else Except.ok (planGrids ods)

/-- `pipette_applicable` of `transfer_to_target` (lines 77–80): for p10,
`0 < volume <= p300_min_transfer_volume`; for p300,
`p300_min_transfer_volume < volume`.  A `+inf` volume fails the p10 test
(`inf <= 30` is false) and passes the p300 test. -/
def pipette_applicable : Pip → EVol → Bool
  | Pip.p10, EVol.fin q => decide (0 < q) && decide (q ≤ p300_min_transfer_volume)
  | Pip.p10, EVol.inf => false
  | Pip.p300, EVol.fin q => decide (p300_min_transfer_volume < q)
  | Pip.p300, EVol.inf => true

/-- The test `np.any(pipette_applicable(volumes))` of line 82, evaluated
on the whole grid.  For `pipette_p10` the lambda (line 78) is the chained
comparison `0 < volume <= p300_min_transfer_volume`; Python desugars it to
an `and`, whose short-circuit forces the intermediate boolean `DataFrame`
`0 < volumes` to a single truth value, and `DataFrame.__bool__`
unconditionally raises `ValueError`, whatever the grid holds.  For
`pipette_p300` the lambda (line 80) is the single comparison
`p300_min_transfer_volume < volume`, which vectorizes elementwise, and
`np.any` then reduces the boolean grid. -/
def any_pipette_applicable : Pip → Grid EVol → Except Err Bool
  | Pip.p10, _ => Except.error Err.truthValueAmbiguous
  | Pip.p300, volumes =>
      Except.ok (anyCell volumes (pipette_applicable Pip.p300))

/-- One iteration of the pipette loop of `transfer_to_target`
(lines 76–109): evaluate the grid-level applicability test of line 82
(which may raise); on `False` skip the pipette (`continue`); otherwise in
never-mode pick one tip up first, transfer every applicable cell in
row-major order (the per-cell test at line 95 applies the same lambda to
a scalar, where the chained comparison is unproblematic), and finally
`if pipette.has_tip: pipette.drop_tip()` — `has_tip` holds exactly in
never-mode, where the tip picked at the start is still held. -/
def pipette_block (volumes : Grid EVol) (new_tip : TipMode) (pipette : Pip) :
    Except Err (List Act) :=
  match any_pipette_applicable pipette volumes with
  | Except.error e => Except.error e
  | Except.ok b =>
    if b then
      Except.ok (
        (match new_tip with
          | TipMode.never => [Act.pickUpTip pipette]
          | TipMode.always => []) ++
        rowMajorCells.filterMap (fun rc =>
          if pipette_applicable pipette (volumes rc.1 rc.2) then
            some (Act.transfer pipette (volumes rc.1 rc.2) rc.1 rc.2)
          else none) ++
        (match new_tip with
          | TipMode.never => [Act.dropTip pipette]
          | TipMode.always => []))
    else Except.ok []

/-- `transfer_to_target` (lines 66–109): iterate the pipettes in the order
p10, p300, accumulating the emitted actions; an exception raised in an
iteration aborts the loop and the whole call, leaving only the actions
already performed.  Because the p10 iteration comes first and its
grid-level applicability test always raises, the real function raises on
every call before any tip or transfer action.  The result is the list of
actions performed, paired with the exception if one was raised. -/
def transfer_to_target (volumes : Grid EVol) (new_tip : TipMode) :
    List Act × Option Err :=
  match pipette_block volumes new_tip Pip.p10 with
  | Except.error e => ([], some e)
  | Except.ok l1 =>
    match pipette_block volumes new_tip Pip.p300 with
    | Except.error e => (l1, some e)
    | Except.ok l2 => (l1 ++ l2, none)

/-- Dispatcher behaviour of `run` (lines 112–116): the media grid with
`new_tip="never"`, then — only if that call returns normally — the
preculture grid with `new_tip="always"`; an exception propagates and
aborts the run with the actions performed so far. -/
def dispatch (pv : Grid EVol) (media : Grid ℚ) : List Act × Option Err :=
  match transfer_to_target (finGrid media) TipMode.never with
  | (l1, some e) => (l1, some e)
  | (l1, none) =>
    match transfer_to_target pv TipMode.always with
    | (l2, r) => (l1 ++ l2, r)

/-- Whole run of `preculture_dilution_by_pipette.py`: validation happens
in `process_OD_inputs` (line 59) before any dispatcher action; on success
the dispatch of both planner grids follows.  The result is the list of
dispatcher actions performed, paired with the exception, if any, that
aborted the run. -/
def run (ods : Grid ℚ) : List Act × Option Err :=
  match process_OD_inputs ods with
  | Except.error e => ([], some e)
  | Except.ok pm => dispatch pm.1 pm.2

end BP

/-- Per-pipette tip-session automaton: `some held` is a live state
recording whether pipette `p` holds a tip, `none` records a violation
(picking up while holding, or dropping without holding).  Transfers are
atomic and leave the state unchanged. -/
def tipStep (p : Pip) : Option Bool → Act → Option Bool
  | some held, Act.pickUpTip q =>
      if q = p then (if held then none else some true) else some held
  | some held, Act.dropTip q =>
      if q = p then (if held then some false else none) else some held
  | some held, Act.transfer _ _ _ _ => some held
  | none, _ => none

/-- Run the tip-session automaton of pipette `p` over a trace, starting
with no tip held. -/
def tipRun (p : Pip) (tr : List Act) : Option Bool :=
  tr.foldl (tipStep p) (some false)

/-- Tip-session invariant of a trace: for each pipette the automaton never
faults and ends with no tip held, i.e. picks and drops alternate
pick-first and every pick is matched by exactly one drop. -/
def tipInvariant (tr : List Act) : Prop :=
  ∀ p, tipRun p tr = some false

/-- The well a dispatcher action transfers into, if it is a transfer. -/
def cellOf : Act → Option (Fin 8 × Fin 12)
  | Act.transfer _ _ r c => some (r, c)
  | _ => none

/-- The cells of the transfers of a trace, in dispatch order. -/
def dispatchedCells (tr : List Act) : List (Fin 8 × Fin 12) :=
  tr.filterMap cellOf

/-- A strictly positive measurement grid used to instantiate hypotheses:
every OD is `0.1`, twice the target. -/
def demoGrid : Grid ℚ := fun _ _ => 1 / 10

/-- The scenario grid of the spec: every OD equals `target_OD`. -/
def odAtTarget : Grid ℚ := fun _ _ => target_OD

/-- A grid whose A0 cell is negative and whose other cells equal the
target OD. -/
def negGrid : Grid ℚ := fun r c => if r = 0 ∧ c = 0 then -1 else target_OD

/-- A grid whose A0 cell is exactly `0` and whose other cells equal the
target OD. -/
def zeroGrid : Grid ℚ := fun r c => if r = 0 ∧ c = 0 then 0 else target_OD

/-- A media grid whose only positive volumes are A0 = 100 (p300 range) and
A1 = 10 (p10 range). -/
def mixedGrid : Grid ℚ :=
  fun r c => if r = 0 ∧ c = 0 then 100 else if r = 0 ∧ c = 1 then 10 else 0

/-- The all-zero media grid. -/
def zeroMedia : Grid ℚ := fun _ _ => 0

/-- Helper: membership of every cell in the row-major enumeration. -/
theorem mem_rowMajorCells (rc : Fin 8 × Fin 12) : rc ∈ rowMajorCells := by
  rcases rc with ⟨r, c⟩
  simp only [rowMajorCells, List.mem_flatMap, List.mem_map]
  exact ⟨r, List.mem_finRange r, c, List.mem_finRange c, rfl⟩

/-- Helper: `np.any` over a grid is false exactly when the predicate fails
on every cell. -/
theorem anyCell_false_iff {α : Type} (g : Grid α) (p : α → Bool) :
    anyCell g p = false ↔ ∀ r c, p (g r c) = false := by
  unfold anyCell
  rw [List.any_eq_false]
  constructor
  · intro h r c
    have := h (r, c) (mem_rowMajorCells (r, c))
    simpa using this
  · intro h rc _
    simp [h rc.1 rc.2]

/-- Helper: `np.any` over a grid is true exactly when some cell satisfies
the predicate. -/
theorem anyCell_true_iff {α : Type} (g : Grid α) (p : α → Bool) :
    anyCell g p = true ↔ ∃ r c, p (g r c) = true := by
  unfold anyCell
  rw [List.any_eq_true]
  constructor
  · rintro ⟨rc, _, hp⟩
    exact ⟨rc.1, rc.2, hp⟩
  · rintro ⟨r, c, hp⟩
    exact ⟨(r, c), mem_rowMajorCells (r, c), hp⟩

/-- Helper: the planner clamp `if 0 < 150 - q then 150 - q else 0` equals
`max 0 (150 - q)`. -/
theorem mediaEntry_fin (q : ℚ) :
    mediaEntry (EVol.fin q) = max 0 (target_volume - q) := by
  show (if 0 < target_volume - q then target_volume - q else 0) = _
  rcases le_or_lt (target_volume - q) 0 with h | h
  · rw [if_neg (not_lt.mpr h), max_eq_left h]
  · rw [if_pos h, max_eq_right h.le]

/-- Helper: at nonzero OD the transfer volume is the finite quotient. -/
theorem get_transfer_volume_ne (od : ℚ) (h : od ≠ 0) :
    get_transfer_volume od = EVol.fin (target_volume * target_OD / od) := by
  unfold get_transfer_volume
  rw [if_neg h]

/-- Helper: extracting cells distributes over trace concatenation. -/
theorem dispatchedCells_append (l1 l2 : List Act) :
    dispatchedCells (l1 ++ l2) = dispatchedCells l1 ++ dispatchedCells l2 :=
  List.filterMap_append l1 l2 cellOf

/-- Helper: a batch of skip-style transfers visits exactly the cells that
are not skipped, in the order of the underlying enumeration. -/
theorem dispatchedCells_skip (l : List (Fin 8 × Fin 12))
    (cond : Fin 8 × Fin 12 → Bool) (f : Fin 8 × Fin 12 → Act)
    (hf : ∀ rc, cellOf (f rc) = some rc) :
    dispatchedCells
      (l.filterMap (fun rc => if cond rc then none else some (f rc))) =
      l.filter (fun rc => !cond rc) := by
  induction l with
  | nil => rfl
  | cons a l ih =>
    unfold dispatchedCells at ih ⊢
    rw [List.filterMap_cons, List.filter_cons]
    cases hc : cond a with
    | false => simp [hc, List.filterMap_cons, hf a, ih]
    | true => simpa [hc] using ih

/-- Helper: `transfer_to_target` of `preculture_dilution_by_pipette.py`
raises the truth-value-ambiguity `ValueError` on every call — its first
iteration, for p10, evaluates the chained comparison on the whole grid —
and performs no action before raising. -/
theorem BP.transfer_to_target_raises (volumes : Grid EVol)
    (new_tip : TipMode) :
    BP.transfer_to_target volumes new_tip =
      ([], some Err.truthValueAmbiguous) :=
  rfl

/-- Helper: the dispatcher part of the by-pipette run raises inside its
first `transfer_to_target` call (the media grid), performing no action. -/
theorem BP.dispatch_raises (pv : Grid EVol) (media : Grid ℚ) :
    BP.dispatch pv media = ([], some Err.truthValueAmbiguous) :=
  rfl

/-- Helper: the transfers of the media phase of `preculture_dilution.py`
are exactly the positive-volume cells in row-major order. -/
theorem PD.dispatchedCells_mediaPhase (media : Grid ℚ) :
    dispatchedCells (PD.mediaPhase media) =
      rowMajorCells.filter (fun rc => !decide (media rc.1 rc.2 ≤ 0)) := by
  unfold PD.mediaPhase
  rw [dispatchedCells_append, dispatchedCells_append, dispatchedCells_append,
    dispatchedCells_append,
    dispatchedCells_skip rowMajorCells
      (fun rc => decide (media rc.1 rc.2 ≤ 0))
      (fun rc => Act.transfer (PD.select_media_pipette (media rc.1 rc.2))
        (EVol.fin (media rc.1 rc.2)) rc.1 rc.2)
      (fun rc => rfl)]
  cases anyCell media (fun v => decide (v < p300_min_transfer_volume)) <;>
    cases anyCell media (fun v => decide (p300_min_transfer_volume ≤ v)) <;>
    simp [dispatchedCells, cellOf]

/-- Helper: the transfers of the preculture phase of
`preculture_dilution.py` are exactly the non-skipped cells in row-major
order. -/
theorem PD.dispatchedCells_prePhase (pv : Grid EVol) :
    dispatchedCells (PD.prePhase pv) =
      rowMajorCells.filter (fun rc => !PD.nonposE (pv rc.1 rc.2)) := by
  unfold PD.prePhase
  exact dispatchedCells_skip _ _ _ (fun rc => rfl)

/-- Claim C2: for every strictly positive volume `v`, exactly one of the
two pipette applicability predicates of
`preculture_dilution_by_pipette.py` holds for `v` (threshold 30 µL): the
p10 predicate `0 < v ≤ 30` or the p300 predicate `30 < v`. -/
theorem C2_pipette_coverage (v : ℚ) (hv : 0 < v) :
    (BP.pipette_applicable Pip.p10 (EVol.fin v) = true ∧
      BP.pipette_applicable Pip.p300 (EVol.fin v) = false) ∨
    (BP.pipette_applicable Pip.p10 (EVol.fin v) = false ∧
      BP.pipette_applicable Pip.p300 (EVol.fin v) = true) := by
  rcases le_or_lt v p300_min_transfer_volume with h | h
  · left
    constructor
    · simp [BP.pipette_applicable, hv, h]
    · simp [BP.pipette_applicable, not_lt.mpr h]
  · right
    constructor
    · simp [BP.pipette_applicable, not_le.mpr h]
    · simp [BP.pipette_applicable, h]

/-- Witness for C2 at the boundary volume 30 µL: it is positive and the
p10 predicate covers it exclusively. -/
theorem C2_pipette_coverage_witness :
    (0 : ℚ) < 30 ∧
    ((BP.pipette_applicable Pip.p10 (EVol.fin 30) = true ∧
      BP.pipette_applicable Pip.p300 (EVol.fin 30) = false) ∨
    (BP.pipette_applicable Pip.p10 (EVol.fin 30) = false ∧
      BP.pipette_applicable Pip.p300 (EVol.fin 30) = true)) :=
  ⟨by norm_num, C2_pipette_coverage 30 (by norm_num)⟩

/-- Claim C1: for every measurement grid whose cells are all strictly
positive, the planner of each source file returns the pair of grids with,
in every cell, `precultureVolume = target_volume * target_OD / OD` and
`diluentVolume = max 0 (target_volume - precultureVolume)`, with the same
8×12 shape and indexing as the input (enforced by the `Grid` type). -/
theorem C1_planner_formulas (ods : Grid ℚ) (hpos : ∀ r c, 0 < ods r c) :
    BP.process_OD_inputs ods = Except.ok (planGrids ods) ∧
    PD.process_OD_inputs ods = planGrids ods ∧
    ∀ r c,
      (planGrids ods).1 r c = EVol.fin (target_volume * target_OD / ods r c) ∧
      (planGrids ods).2 r c =
        max 0 (target_volume - target_volume * target_OD / ods r c) := by
  refine ⟨?_, rfl, ?_⟩
  · have hneg : anyCell ods (fun v => decide (v < 0)) = false := by
      rw [anyCell_false_iff]
      intro r c
      simpa using not_lt.mpr (hpos r c).le
    unfold BP.process_OD_inputs
    simp [hneg]
  · intro r c
    have hne : ods r c ≠ 0 := ne_of_gt (hpos r c)
    refine ⟨?_, ?_⟩
    · show get_transfer_volume (ods r c) = _
      rw [get_transfer_volume_ne _ hne]
    · show mediaEntry (get_transfer_volume (ods r c)) = _
      rw [get_transfer_volume_ne _ hne, mediaEntry_fin]

/-- Witness for C1 on a concrete all-positive grid (every OD `0.1`). -/
theorem C1_planner_formulas_witness :
    (∀ r c, (0 : ℚ) < demoGrid r c) ∧
    (planGrids demoGrid).2 0 0 =
      max 0 (target_volume -
        target_volume * target_OD / demoGrid 0 0) :=
  ⟨fun r c => by norm_num [demoGrid],
   ((C1_planner_formulas demoGrid (fun r c => by norm_num [demoGrid])).2.2
      0 0).2⟩

/-- Claim C10: for every strictly positive measurement grid, in every
cell the diluent volume is nonnegative, preculture plus diluent equals
`max target_volume precultureVolume`, and the diluent volume is positive
exactly when the measured OD exceeds `target_OD`. -/
theorem C10_volume_invariants (ods : Grid ℚ) (hpos : ∀ r c, 0 < ods r c)
    (r : Fin 8) (c : Fin 12) :
    0 ≤ (planGrids ods).2 r c ∧
    (planGrids ods).1 r c = EVol.fin (target_volume * target_OD / ods r c) ∧
    target_volume * target_OD / ods r c + (planGrids ods).2 r c =
      max target_volume (target_volume * target_OD / ods r c) ∧
    (0 < (planGrids ods).2 r c ↔ target_OD < ods r c) := by
  have h0 := hpos r c
  have hne : ods r c ≠ 0 := ne_of_gt h0
  have hpv : (planGrids ods).1 r c =
      EVol.fin (target_volume * target_OD / ods r c) := by
    show get_transfer_volume (ods r c) = _
    rw [get_transfer_volume_ne _ hne]
  have hmedia : (planGrids ods).2 r c =
      max 0 (target_volume - target_volume * target_OD / ods r c) := by
    show mediaEntry (get_transfer_volume (ods r c)) = _
    rw [get_transfer_volume_ne _ hne, mediaEntry_fin]
  set od := ods r c with hod
  set q := target_volume * target_OD / od with hq
  refine ⟨?_, hpv, ?_, ?_⟩
  · rw [hmedia]
    exact le_max_left 0 _
  · rw [hmedia]
    rcases le_or_lt target_volume q with h | h
    · rw [max_eq_left (by linarith : target_volume - q ≤ 0), add_zero,
        max_eq_right h]
    · rw [max_eq_right (by linarith : (0 : ℚ) ≤ target_volume - q),
        max_eq_left h.le]
      ring
  · rw [hmedia]
    have hqlt : q < target_volume ↔ target_OD < od := by
      rw [hq, div_lt_iff h0]
      unfold target_volume target_OD
      constructor
      · intro h
        norm_num at h ⊢
        linarith
      · intro h
        norm_num at h ⊢
        linarith
    constructor
    · intro hm
      have h1 : 0 < target_volume - q := by
        by_contra hc
        push_neg at hc
        rw [max_eq_left hc] at hm
        exact lt_irrefl 0 hm
      exact hqlt.mp (by linarith)
    · intro hod2
      have h2 : q < target_volume := hqlt.mpr hod2
      rw [max_eq_right (by linarith : (0 : ℚ) ≤ target_volume - q)]
      linarith

/-- Witness for C10 on a concrete all-positive grid (every OD `0.1`),
specialized to well A0. -/
theorem C10_volume_invariants_witness :
    (∀ r c, (0 : ℚ) < demoGrid r c) ∧
    (0 < (planGrids demoGrid).2 0 0 ↔
      target_OD < demoGrid 0 0) :=
  ⟨fun r c => by norm_num [demoGrid],
   (C10_volume_invariants demoGrid (fun r c => by norm_num [demoGrid])
      0 0).2.2.2⟩

/-- Claim C8: on the grid whose ODs all equal `target_OD = 0.05`, the
planner (accepted by the strict variant's validation) yields preculture
volume `150` µL and diluent volume `0` in every well, and neither file's
dispatcher schedules any diluent transfer: the media phase of
`preculture_dilution.py` skips every cell, and the media call of
`preculture_dilution_by_pipette.py` raises before scheduling anything. -/
theorem C8_at_target_scenario :
    BP.process_OD_inputs odAtTarget = Except.ok (planGrids odAtTarget) ∧
    (∀ r c, (planGrids odAtTarget).1 r c = EVol.fin 150 ∧
      (planGrids odAtTarget).2 r c = 0) ∧
    dispatchedCells (PD.mediaPhase (planGrids odAtTarget).2) = [] ∧
    (BP.transfer_to_target (finGrid (planGrids odAtTarget).2) TipMode.never).1
      = [] := by
  have hvals : ∀ r c, (planGrids odAtTarget).1 r c = EVol.fin 150 ∧
      (planGrids odAtTarget).2 r c = 0 := by
    intro r c
    have h1 : (planGrids odAtTarget).1 r c = EVol.fin 150 := by
      show get_transfer_volume (odAtTarget r c) = _
      rw [get_transfer_volume_ne]
      · norm_num [odAtTarget, target_OD, target_volume]
      · norm_num [odAtTarget, target_OD]
    have h2 : (planGrids odAtTarget).2 r c = 0 := by
      show mediaEntry (get_transfer_volume (odAtTarget r c)) = _
      rw [get_transfer_volume_ne]
      · norm_num [mediaEntry, odAtTarget, target_OD, target_volume]
      · norm_num [odAtTarget, target_OD]
    exact ⟨h1, h2⟩
  refine ⟨?_, hvals, ?_, ?_⟩
  · have hneg : anyCell odAtTarget (fun v => decide (v < 0)) = false := by
      rw [anyCell_false_iff]
      intro r c
      norm_num [odAtTarget, target_OD]
    unfold BP.process_OD_inputs
    simp [hneg]
  · rw [PD.dispatchedCells_mediaPhase]
    rw [List.filter_eq_nil]
    intro rc _
    simp [(hvals rc.1 rc.2).2]
  · rw [BP.transfer_to_target_raises]

/-- Claim C6: for every measurement grid with a negative cell, the run of
`preculture_dilution_by_pipette.py` fails with the invalid-measurement
error, and no dispatcher action is performed: validation precedes
dispatch, so the performed-action trace of the run is empty. -/
theorem C6_negative_aborts (ods : Grid ℚ) (h : ∃ r c, ods r c < 0) :
    BP.run ods = ([], some Err.invalidMeasurement) := by
  obtain ⟨r, c, hrc⟩ := h
  have hany : anyCell ods (fun v => decide (v < 0)) = true := by
    rw [anyCell_true_iff]
    exact ⟨r, c, by simpa using hrc⟩
  unfold BP.run BP.process_OD_inputs
  simp [hany]

/-- Witness for C6 on the concrete grid whose A0 cell is `-1`. -/
theorem C6_negative_aborts_witness :
    (∃ r c, negGrid r c < 0) ∧
    BP.run negGrid = ([], some Err.invalidMeasurement) :=
  ⟨⟨0, 0, by norm_num [negGrid]⟩,
   C6_negative_aborts negGrid
     ⟨0, 0, by norm_num [negGrid]⟩⟩

/-- Claim C5 (code evaluation at the failing input): on the grid whose A0
cell has OD exactly `0`, neither planner raises anything — the strict
variant only rejects cells `< 0` — and the A0 preculture volume is the
float infinity `7.5 / 0.0`.  `preculture_dilution.py` then dispatches
hardware actions, the p300 pipette even being scheduled to transfer the
infinite volume into well A0; `preculture_dilution_by_pipette.py`
proceeds past its validation and dies of the unrelated
truth-value-ambiguity `ValueError`, not of the invalid-measurement
rejection the claim requires. -/
theorem C5_zero_od_not_rejected :
    BP.process_OD_inputs zeroGrid = Except.ok (planGrids zeroGrid) ∧
    PD.process_OD_inputs zeroGrid = planGrids zeroGrid ∧
    (planGrids zeroGrid).1 0 0 = EVol.inf ∧
    Act.transfer Pip.p300 EVol.inf 0 0 ∈
      PD.prePhase (planGrids zeroGrid).1 ∧
    BP.run zeroGrid = ([], some Err.truthValueAmbiguous) := by
  have ha0 : zeroGrid 0 0 = 0 := by
    simp [zeroGrid]
  have hinf : (planGrids zeroGrid).1 0 0 = EVol.inf := by
    show get_transfer_volume (zeroGrid 0 0) = _
    rw [ha0]
    rfl
  have hok : BP.process_OD_inputs zeroGrid = Except.ok (planGrids zeroGrid) := by
    have hneg : anyCell zeroGrid (fun v => decide (v < 0)) = false := by
      rw [anyCell_false_iff]
      intro r c
      unfold zeroGrid
      split <;> norm_num [target_OD]
    unfold BP.process_OD_inputs
    simp [hneg]
  refine ⟨hok, rfl, hinf, ?_, ?_⟩
  · unfold PD.prePhase
    refine List.mem_filterMap.mpr ⟨(0, 0),
      mem_rowMajorCells _, ?_⟩
    simp [hinf, PD.nonposE, PD.select_pre_pipette]
  · unfold BP.run
    rw [hok]
    exact BP.dispatch_raises _ _

/-- Helper: a skip-style transfer batch contains no tip pickup. -/
theorem pickUp_not_mem_skip (l : List (Fin 8 × Fin 12))
    (cond : Fin 8 × Fin 12 → Bool) (pip : Fin 8 × Fin 12 → Pip)
    (vol : Fin 8 × Fin 12 → EVol) (p : Pip) :
    Act.pickUpTip p ∉ l.filterMap (fun rc =>
      if cond rc then none
      else some (Act.transfer (pip rc) (vol rc) rc.1 rc.2)) := by
  intro hmem
  rw [List.mem_filterMap] at hmem
  obtain ⟨rc, _, heq⟩ := hmem
  by_cases hc : cond rc = true
  · rw [if_pos hc] at heq
    exact Option.noConfusion heq
  · rw [if_neg hc] at heq
    exact Act.noConfusion (Option.some.inj heq)

/-- Helper: every action of a skip-style batch is a transfer. -/
theorem mem_skip_is_transfer (l : List (Fin 8 × Fin 12))
    (cond : Fin 8 × Fin 12 → Bool) (pip : Fin 8 × Fin 12 → Pip)
    (vol : Fin 8 × Fin 12 → EVol) (a : Act) :
    a ∈ l.filterMap (fun rc =>
      if cond rc then none
      else some (Act.transfer (pip rc) (vol rc) rc.1 rc.2)) →
    ∃ q v r c, a = Act.transfer q v r c := by
  intro hmem
  rw [List.mem_filterMap] at hmem
  obtain ⟨rc, _, heq⟩ := hmem
  by_cases hc : cond rc = true
  · rw [if_pos hc] at heq
    exact Option.noConfusion heq
  · rw [if_neg hc] at heq
    exact ⟨pip rc, vol rc, rc.1, rc.2, (Option.some.inj heq).symm⟩

/-- Claim C4 counterexample: on the media grid with A0 = 100 µL and
A1 = 10 µL, `transfer_to_target` of `preculture_dilution_by_pipette.py`
raises before dispatching anything, so the dispatched sequence is empty
and differs from the nonempty row-major filtering of the grid that the
claim requires. -/
theorem C4_not_row_major_counterexample :
    (BP.transfer_to_target (finGrid mixedGrid) TipMode.never).1 = [] ∧
    (BP.transfer_to_target (finGrid mixedGrid) TipMode.never).2 =
      some Err.truthValueAmbiguous ∧
    rowMajorCells.filter (fun rc => !decide (mixedGrid rc.1 rc.2 ≤ 0)) ≠ [] := by
  refine ⟨rfl, rfl, by decide⟩

/-- Claim C4, amended: `preculture_dilution.py` dispatches each grid in
row-major order over the whole grid with nonpositive cells skipped (and
skipping is not an error: the trace is simply emitted without one), while
`transfer_to_target` of `preculture_dilution_by_pipette.py` raises the
truth-value-ambiguity `ValueError` on every call, before any action, and
so dispatches no transfer at all. -/
theorem C4_dispatch_ordering (vols : Grid EVol) (new_tip : TipMode)
    (media : Grid ℚ) (pv : Grid EVol) :
    BP.transfer_to_target vols new_tip = ([], some Err.truthValueAmbiguous) ∧
    dispatchedCells (PD.mediaPhase media) =
      rowMajorCells.filter (fun rc => !decide (media rc.1 rc.2 ≤ 0)) ∧
    dispatchedCells (PD.prePhase pv) =
      rowMajorCells.filter (fun rc => !PD.nonposE (pv rc.1 rc.2)) :=
  ⟨BP.transfer_to_target_raises vols new_tip,
   PD.dispatchedCells_mediaPhase media,
   PD.dispatchedCells_prePhase pv⟩

/-- Claim C7 counterexample: on the all-zero media grid no cell satisfies
the p10 applicability predicate (`0 < v ≤ 30`), yet the media phase of
`preculture_dilution.py` acquires a p10 tip, because its pickup condition
is `np.any(media < 30)` and `0 < 30`. -/
theorem C7_tip_without_applicable_cell_counterexample :
    (∀ r c, BP.pipette_applicable Pip.p10 (EVol.fin (zeroMedia r c)) = false) ∧
    Act.pickUpTip Pip.p10 ∈ PD.mediaPhase zeroMedia := by
  constructor
  · decide
  · decide

/-- Claim C7, amended: in `preculture_dilution_by_pipette.py` no tip is
ever acquired during dispatch — for any pipette, grid and tip mode —
because `transfer_to_target` raises before its first tip action; in
`preculture_dilution.py` the preculture phase acquires no tip at all, and
in the media phase a p10 tip is acquired exactly when some cell has
volume `< 30` and a p300 tip exactly when some cell has volume `>= 30` —
conditions that can hold (for example on an all-zero grid) although no
cell satisfies the corresponding applicability predicate. -/
theorem C7_tip_acquisition :
    (∀ (vols : Grid EVol) (new_tip : TipMode) (p : Pip),
      Act.pickUpTip p ∉ (BP.transfer_to_target vols new_tip).1) ∧
    (∀ (pv : Grid EVol) (p : Pip), Act.pickUpTip p ∉ PD.prePhase pv) ∧
    (∀ media : Grid ℚ,
      (Act.pickUpTip Pip.p10 ∈ PD.mediaPhase media ↔
        anyCell media (fun v => decide (v < p300_min_transfer_volume)) = true) ∧
      (Act.pickUpTip Pip.p300 ∈ PD.mediaPhase media ↔
        anyCell media (fun v => decide (p300_min_transfer_volume ≤ v)) = true)) := by
  refine ⟨?_, ?_, ?_⟩
  · intro vols mode p
    rw [BP.transfer_to_target_raises]
    exact List.not_mem_nil _
  · intro pv p
    unfold PD.prePhase
    exact pickUp_not_mem_skip rowMajorCells
      (fun rc => PD.nonposE (pv rc.1 rc.2))
      (fun rc => PD.select_pre_pipette (pv rc.1 rc.2))
      (fun rc => pv rc.1 rc.2) p
  · intro media
    have htr : ∀ p : Pip, Act.pickUpTip p ∉
        rowMajorCells.filterMap (fun rc =>
          if decide (media rc.1 rc.2 ≤ 0) then none
          else some (Act.transfer (PD.select_media_pipette (media rc.1 rc.2))
            (EVol.fin (media rc.1 rc.2)) rc.1 rc.2)) := by
      intro p
      exact pickUp_not_mem_skip rowMajorCells
        (fun rc => decide (media rc.1 rc.2 ≤ 0))
        (fun rc => PD.select_media_pipette (media rc.1 rc.2))
        (fun rc => EVol.fin (media rc.1 rc.2)) p
    constructor <;>
      cases h10 : anyCell media (fun v => decide (v < p300_min_transfer_volume)) <;>
      cases h300 : anyCell media (fun v => decide (p300_min_transfer_volume ≤ v)) <;>
      simp [PD.mediaPhase, h10, h300, htr Pip.p10, htr Pip.p300]

/-- Helper: transfers leave the tip automaton unchanged. -/
theorem tipStep_transfer (p q : Pip) (v : EVol) (r : Fin 8) (c : Fin 12)
    (s : Option Bool) : tipStep p s (Act.transfer q v r c) = s := by
  cases s <;> rfl

/-- Helper: a list of transfers leaves the tip automaton unchanged. -/
theorem foldl_tipStep_transfers (p : Pip) (l : List Act)
    (h : ∀ a ∈ l, ∃ q v r c, a = Act.transfer q v r c) :
    ∀ s : Option Bool, l.foldl (tipStep p) s = s := by
  induction l with
  | nil => intro s; rfl
  | cons a l ih =>
    intro s
    have hrest : ∀ b ∈ l, ∃ q v r c, b = Act.transfer q v r c :=
      fun b hb => h b (List.mem_cons_of_mem a hb)
    obtain ⟨q, v, r, c, heq⟩ := h a (List.mem_cons_self a l)
    rw [List.foldl_cons, heq, tipStep_transfer]
    exact ih hrest s

/-- Helper: the preculture phase of `preculture_dilution.py` leaves the
tip automaton unchanged (it contains only atomic always-mode transfers). -/
theorem PD.tipRun_prePhase (pv : Grid EVol) (p : Pip) (s : Option Bool) :
    (PD.prePhase pv).foldl (tipStep p) s = s := by
  unfold PD.prePhase
  exact foldl_tipStep_transfers p _
    (mem_skip_is_transfer rowMajorCells
      (fun rc => PD.nonposE (pv rc.1 rc.2))
      (fun rc => PD.select_pre_pipette (pv rc.1 rc.2))
      (fun rc => pv rc.1 rc.2)) s

/-- Helper: the media phase of `preculture_dilution.py` maps the
no-tip-held state back to itself: each conditional pickup is matched by
the conditional drop guarded by the same `has_tip` condition. -/
theorem PD.tipRun_mediaPhase (media : Grid ℚ) (p : Pip) :
    (PD.mediaPhase media).foldl (tipStep p) (some false) = some false := by
  have hbody : ∀ s : Option Bool,
      (rowMajorCells.filterMap (fun rc =>
        if decide (media rc.1 rc.2 ≤ 0) then none
        else some (Act.transfer (PD.select_media_pipette (media rc.1 rc.2))
          (EVol.fin (media rc.1 rc.2)) rc.1 rc.2))).foldl (tipStep p) s = s := by
    intro s
    exact foldl_tipStep_transfers p _
      (mem_skip_is_transfer rowMajorCells
        (fun rc => decide (media rc.1 rc.2 ≤ 0))
        (fun rc => PD.select_media_pipette (media rc.1 rc.2))
        (fun rc => EVol.fin (media rc.1 rc.2))) s
  unfold PD.mediaPhase
  rw [List.foldl_append, List.foldl_append, List.foldl_append,
    List.foldl_append, hbody]
  cases p <;>
    cases h10 : anyCell media (fun v => decide (v < p300_min_transfer_volume)) <;>
    cases h300 : anyCell media (fun v => decide (p300_min_transfer_volume ≤ v)) <;>
    simp [tipStep, List.foldl_cons, List.foldl_nil]

/-- Claim C3: in every dispatcher trace produced by either protocol, each
`pickUpTip` of a given pipette is followed, before the next `pickUpTip` of
that pipette, by exactly one `dropTip` of that pipette: the per-pipette
tip automaton never faults (so at most one tip is held per pipette, and a
tip is acquired only when none is held) and ends with no tip held (so
every acquired tip is released, also on skip paths).  For
`preculture_dilution_by_pipette.py` this holds vacuously: its dispatcher
raises before any tip action, so its every performed trace is empty; the
traces of `preculture_dilution.py` satisfy it substantively. -/
theorem C3_tip_session_invariant (pv : Grid EVol) (media : Grid ℚ) :
    tipInvariant (BP.dispatch pv media).1 ∧
    tipInvariant (PD.dispatch pv media) := by
  constructor
  · intro p
    rw [BP.dispatch_raises]
    rfl
  · intro p
    unfold tipRun PD.dispatch
    rw [List.foldl_append, PD.tipRun_mediaPhase, PD.tipRun_prePhase]

/-- Witness for the amended C7 on the all-zero volume grid: the
by-pipette dispatcher acquires no p10 tip (its trace is empty), and the
media phase of `preculture_dilution.py` acquires a p10 tip exactly
because some cell is below 30 µL. -/
theorem C7_tip_acquisition_witness :
    Act.pickUpTip Pip.p10 ∉
      (BP.transfer_to_target (finGrid zeroMedia) TipMode.never).1 ∧
    (Act.pickUpTip Pip.p10 ∈ PD.mediaPhase zeroMedia ↔
      anyCell zeroMedia
        (fun v => decide (v < p300_min_transfer_volume)) = true) :=
  ⟨C7_tip_acquisition.1 (finGrid zeroMedia) TipMode.never Pip.p10,
   (C7_tip_acquisition.2.2 zeroMedia).1⟩

/-- Claim C9 counterexample: at the threshold volume 30 µL the
media-distribution branch of `preculture_dilution.py` selects p300
(`volume >= 30`), while its preculture branch (`volume > 30`) and the
applicability predicates of `preculture_dilution_by_pipette.py`
(`0 < volume <= 30`) select p10, so the three selections are not all the
same pipette. -/
theorem C9_threshold_disagreement_counterexample :
    (0 : ℚ) < 30 ∧
    PD.select_media_pipette 30 = Pip.p300 ∧
    PD.select_pre_pipette (EVol.fin 30) = Pip.p10 ∧
    BP.pipette_applicable Pip.p10 (EVol.fin 30) = true ∧
    BP.pipette_applicable Pip.p300 (EVol.fin 30) = false ∧
    PD.select_media_pipette 30 ≠ PD.select_pre_pipette (EVol.fin 30) := by
  refine ⟨by norm_num, by decide, by decide, by decide, by decide, by decide⟩

/-- Claim C9, amended: for every strictly positive volume other than
exactly 30 µL, the media branch, the preculture branch and the by-pipette
applicability predicates agree on one pipette; at exactly 30 µL the media
branch alone picks p300. -/
theorem C9_pipette_selection_agreement (v : ℚ) (hv : 0 < v) (hne : v ≠ 30) :
    PD.select_media_pipette v = PD.select_pre_pipette (EVol.fin v) ∧
    BP.pipette_applicable (PD.select_media_pipette v) (EVol.fin v) = true ∧
    ∀ p, BP.pipette_applicable p (EVol.fin v) = true →
      p = PD.select_media_pipette v := by
  have h30 : p300_min_transfer_volume = 30 := rfl
  rcases lt_trichotomy v 30 with h | h | h
  · have hm : PD.select_media_pipette v = Pip.p10 := by
      unfold PD.select_media_pipette
      rw [if_neg (by rw [h30]; exact not_le.mpr h)]
    have hp : PD.select_pre_pipette (EVol.fin v) = Pip.p10 := by
      show (if p300_min_transfer_volume < v then Pip.p300 else Pip.p10) = _
      rw [if_neg (by rw [h30]; exact not_lt.mpr h.le)]
    refine ⟨by rw [hm, hp], ?_, ?_⟩
    · rw [hm]
      show (decide (0 < v) && decide (v ≤ p300_min_transfer_volume)) = true
      rw [h30]
      simp [hv, h.le]
    · intro p happ
      cases p
      · rw [hm]
      · exfalso
        revert happ
        show ¬(decide (p300_min_transfer_volume < v) = true)
        rw [h30]
        simp [not_lt.mpr h.le]
  · exact absurd h hne
  · have hm : PD.select_media_pipette v = Pip.p300 := by
      unfold PD.select_media_pipette
      rw [if_pos (by rw [h30]; exact h.le)]
    have hp : PD.select_pre_pipette (EVol.fin v) = Pip.p300 := by
      show (if p300_min_transfer_volume < v then Pip.p300 else Pip.p10) = _
      rw [if_pos (by rw [h30]; exact h)]
    refine ⟨by rw [hm, hp], ?_, ?_⟩
    · rw [hm]
      show decide (p300_min_transfer_volume < v) = true
      rw [h30]
      simp [h]
    · intro p happ
      cases p
      · exfalso
        revert happ
        show ¬((decide (0 < v) && decide (v ≤ p300_min_transfer_volume)) = true)
        rw [h30]
        simp [not_le.mpr h]
      · rw [hm]

/-- Witness for the amended C9 at the volume 5 µL: it is positive, not the
threshold, and both selection branches agree there. -/
theorem C9_pipette_selection_agreement_witness :
    ((0 : ℚ) < 5 ∧ (5 : ℚ) ≠ 30) ∧
    PD.select_media_pipette 5 = PD.select_pre_pipette (EVol.fin 5) :=
  ⟨⟨by norm_num, by norm_num⟩,
   (C9_pipette_selection_agreement 5 (by norm_num) (by norm_num)).1⟩
